import Mathlib

/-!
Shallow embedding of `src/index.js` (Localserver-query44/cloudeaserver):
an Express caching reverse-proxy for a game-statistics API plus a
paginated panel aggregator.  Pure data and the request/response logic are
translated into executable Lean definitions; the network is modelled as an
explicit function argument (`upstream`), time as an explicit `now : Nat`
(milliseconds), and the in-process cache as an explicit list of entries
threaded through the handlers.
-/

namespace Cloudea

/-- `BASE_URL` constant from `src/index.js` line 10. -/
def BASE_URL : String := "https://free-ff-api-src-5plp.onrender.com/api/v1"

/-- `CACHE_DURATION = 24 * 60 * 60 * 1000` (ms), `src/index.js` line 12. -/
def CACHE_DURATION : Nat := 24 * 60 * 60 * 1000

/-- `supportedRegions`, `src/index.js` line 18. -/
def supportedRegions : List String :=
  ["IND", "BR", "SG", "RU", "ID", "TW", "US", "VN", "TH", "ME", "PK", "CIS", "BD"]

/-- One character of JavaScript `String.prototype.toUpperCase` (Unicode
Default Case Conversion), modelled exactly on every code point whose
conversion can contribute a character of the uppercase-ASCII region
codes: the ASCII letters `a`..`z` (`Char.toUpper` is that mapping), plus
the only two non-ASCII code points whose Unicode uppercase is a single
ASCII letter — U+0131 dotless i, which uppercases to `I`, and U+017F
long s, which uppercases to `S`.  Every other character is kept: its
real conversion is either itself or a non-ASCII character or a
multi-character expansion (SS, FF, FI, FL, FFI, FFL, ST, or sequences
with combining marks), none of which can produce a character or
substring of the 13 codes, so membership in the allow-list is the same
as under the full conversion. -/
def jsUpcaseChar (c : Char) : Char :=
  if c = 'ı' then 'I'
  else if c = 'ſ' then 'S'
  else Char.toUpper c

/-- Char-wise model of JavaScript `String.prototype.toUpperCase` as used
by `isValidRegion` (see `jsUpcaseChar`). -/
def jsToUpperCase (s : String) : String := ⟨s.data.map jsUpcaseChar⟩

/-- `isValidRegion`, `src/index.js` line 55:
`(region) => supportedRegions.includes(region.toUpperCase())`. -/
def isValidRegion (region : String) : Bool :=
  supportedRegions.contains (jsToUpperCase region)

/-- Model of the JSON values the upstream can answer with
(`response.data` after axios parsing). -/
inductive Json where
  | null
  | bool (b : Bool)
  | num (n : Int)
  | str (s : String)
  | arr (elems : List Json)
  | obj (fields : List (String × Json))
deriving Repr, Inhabited

/-- JavaScript truthiness test applied to `response.data`
(`!response.data`): `null`/`undefined`, `false`, `0` and `""` are falsy. -/
def Json.isFalsy : Json → Bool
  | .null => true
  | .bool b => !b
  | .num n => n == 0
  | .str s => s == ""
  | .arr _ => false
  | .obj _ => false

/-- `Object.keys(response.data).length` for the modelled values: an object
yields its field count, an array its length, a string its character count
(JS enumerates string indices), and primitives have no enumerable keys. -/
def Json.enumerableKeyCount : Json → Nat
  | .null => 0
  | .bool _ => 0
  | .num _ => 0
  | .str s => s.length
  | .arr l => l.length
  | .obj f => f.length

/-- The guard of `src/index.js` line 36:
`!response.data || Object.keys(response.data).length === 0`. -/
def isEmptyPayload (d : Json) : Bool :=
  d.isFalsy || d.enumerableKeyCount == 0

/-- JSON string escaping as done by `JSON.stringify` for the characters
appearing in our model (quote, backslash and the common control chars). -/
def escapeJsonChar (c : Char) : String :=
  if c = '"' then "\\\""
  else if c = '\\' then "\\\\"
  else if c = '\n' then "\\n"
  else if c = '\t' then "\\t"
  else if c = '\r' then "\\r"
  else String.singleton c

def escapeJsonString (s : String) : String :=
  String.join (s.data.map escapeJsonChar)

def quoteJson (s : String) : String := "\"" ++ escapeJsonString s ++ "\""

def indentStr (n : Nat) : String := String.mk (List.replicate n ' ')

mutual
/-- `JSON.stringify(v, null, 2)` at indentation level `ind`: two-space
pretty printing, empty containers printed without a line break. -/
def Json.stringifyAt : Nat → Json → String
  | _, .null => "null"
  | _, .bool b => if b then "true" else "false"
  | _, .num n => toString n
  | _, .str s => quoteJson s
  | _, .arr [] => "[]"
  | ind, .arr (x :: xs) =>
      "[\n" ++ Json.stringifyItems (ind + 2) (x :: xs) ++ "\n" ++ indentStr ind ++ "]"
  | _, .obj [] => "\x7b\x7d"
  | ind, .obj (f :: fs) =>
      "\x7b\n" ++ Json.stringifyFields (ind + 2) (f :: fs) ++ "\n" ++ indentStr ind ++ "\x7d"

def Json.stringifyItems : Nat → List Json → String
  | _, [] => ""
  | ind, [x] => indentStr ind ++ Json.stringifyAt ind x
  | ind, x :: y :: xs =>
      indentStr ind ++ Json.stringifyAt ind x ++ ",\n" ++ Json.stringifyItems ind (y :: xs)

def Json.stringifyFields : Nat → List (String × Json) → String
  | _, [] => ""
  | ind, [(k, v)] => indentStr ind ++ quoteJson k ++ ": " ++ Json.stringifyAt ind v
  | ind, (k, v) :: f :: fs =>
      indentStr ind ++ quoteJson k ++ ": " ++ Json.stringifyAt ind v ++ ",\n" ++
        Json.stringifyFields ind (f :: fs)
end

/-- `JSON.stringify(v, null, 2)` as called at `src/index.js` line 42. -/
def stringify2 (v : Json) : String := Json.stringifyAt 0 v

/-- Modelled from the spec: one entry of the `memory-cache` npm dependency
(the cache library is not part of `src/`).  `expire = storedAt + ttl`;
per the spec an entry is visible only while `now < storedAt + ttl`
(the library also deletes the entry by timer once the TTL elapses). -/
structure CacheEntry where
  key : String
  value : String
  expire : Nat
deriving Repr, DecidableEq

/-- Modelled from the spec: `cache.get(key)` of `memory-cache` — the stored
value while the entry is unexpired at time `now`, absent otherwise. -/
def cacheGet (c : List CacheEntry) (now : Nat) (key : String) : Option String :=
  match c.find? (fun e => e.key == key) with
  | some e => if now < e.expire then some e.value else none
  | none => none

/-- Modelled from the spec: `cache.put(key, value, ttl)` of `memory-cache` —
stores `value` under `key` with expiry `now + ttl`, overwriting any
previous entry for the same key. -/
def cachePut (c : List CacheEntry) (now : Nat) (key value : String) (ttl : Nat) :
    List CacheEntry :=
  ⟨key, value, now + ttl⟩ :: c.filter (fun e => e.key != key)

/-- Response bodies: `res.send(string)` vs `res.json(object)`. -/
inductive Body where
  | text (s : String)
  | json (j : Json)
deriving Repr, Inhabited

/-- An HTTP response as written by a handler: status (200 when only
`res.send` is used) and body. -/
structure HttpRes where
  status : Nat
  body : Body
deriving Repr, Inhabited

/-- Outcome of one `axios.get(url)`: parsed data on fulfilment, or a
rejection carrying `error.response.status` when the error has a response
(`none` models a transport error with no response) and `error.message`. -/
inductive UpstreamResult where
  | ok (data : Json)
  | err (status : Option Nat) (message : String)

/-- Everything observable about one run of a proxy handler: the response
written, the cache state afterwards, and the list of outbound URLs
fetched during the run. -/
structure FetchOutcome where
  response : HttpRes
  cacheAfter : List CacheEntry
  outboundCalls : List String
deriving Repr, Inhabited

/-- The fixed 429 body of `src/index.js` lines 37-39. -/
def rateLimitBody : Json :=
  .obj [("error", .str "API limit has been reached. The limit will reset in 1-2 hours.")]

/-- `fetchFromApi(url, res, cacheKey)`, `src/index.js` lines 27-53.
The `upstream` argument models `axios.get`; `now` the current time. -/
def fetchFromApi (upstream : String → UpstreamResult) (now : Nat)
    (c : List CacheEntry) (url cacheKey : String) : FetchOutcome :=
  match cacheGet c now cacheKey with
  | some cachedData => ⟨⟨200, .text cachedData⟩, c, []⟩
  | none =>
    match upstream url with
    | .ok data =>
      if isEmptyPayload data then
        ⟨⟨429, .json rateLimitBody⟩, c, [url]⟩
      else
        let responseData := stringify2 data
        ⟨⟨200, .text responseData⟩,
          cachePut c now cacheKey responseData CACHE_DURATION, [url]⟩
    | .err status msg =>
      ⟨⟨status.getD 500,
          .json (.obj [("error", .str "Failed to fetch data"), ("details", .str msg)])⟩,
        c, [url]⟩

/-- A query parameter as seen by an Express handler: `none` when the
parameter is absent from the query string, `some s` when present with
value `s` (possibly empty). -/
def QueryParam := Option String

/-- The JS falsiness check `!region` / `!uid` on a query parameter:
true when the parameter is absent or the empty string. -/
def isMissing : Option String → Bool
  | none => true
  | some s => s == ""

/-- The 400 body of the region-scoped routes when a parameter is missing,
e.g. `src/index.js` line 155; `p` is the name of the second required
parameter (uid, map_code or guildID). -/
def missingParamsBody (p : String) : Json :=
  .obj [("error",
    .str ("Please provide both \"region\" and \"" ++ p ++ "\" parameters."))]

/-- The 400 body when the region is unsupported, e.g. `src/index.js`
line 158 (`supportedRegions.join(', ')`). -/
def unsupportedRegionBody (region : String) : Json :=
  .obj [("error",
    .str ("Region " ++ region ++ " is not supported. Supported regions are: " ++
      String.intercalate ", " supportedRegions))]

/-- Common shape of the six region-scoped handlers
(`src/index.js` lines 152-228), which are textually identical up to the
endpoint name and the name of the second query parameter: check both
parameters are present, validate the region, then call `fetchFromApi`
with `url = BASE_URL/<endpoint>?region=<r>&<p>=<v>` and
`cacheKey = <endpoint>-<r>-<v>`. -/
def regionProxyRoute (endpoint secondParam : String)
    (upstream : String → UpstreamResult) (now : Nat) (c : List CacheEntry)
    (region? second? : Option String) : FetchOutcome :=
  if isMissing region? || isMissing second? then
    ⟨⟨400, .json (missingParamsBody secondParam)⟩, c, []⟩
  else
    let region := region?.getD ""
    let second := second?.getD ""
    if !isValidRegion region then
      ⟨⟨400, .json (unsupportedRegionBody region)⟩, c, []⟩
    else
      fetchFromApi upstream now c
        (BASE_URL ++ "/" ++ endpoint ++ "?region=" ++ region ++ "&" ++
          secondParam ++ "=" ++ second)
        (endpoint ++ "-" ++ region ++ "-" ++ second)

/-- `app.get('/api/v1/account')`, `src/index.js` lines 152-163. -/
def accountRoute : (String → UpstreamResult) → Nat → List CacheEntry →
    Option String → Option String → FetchOutcome :=
  regionProxyRoute "account" "uid"

/-- `app.get('/api/v1/craftlandProfile')`, lines 165-176. -/
def craftlandProfileRoute : (String → UpstreamResult) → Nat → List CacheEntry →
    Option String → Option String → FetchOutcome :=
  regionProxyRoute "craftlandProfile" "uid"

/-- `app.get('/api/v1/craftlandInfo')`, lines 178-189. -/
def craftlandInfoRoute : (String → UpstreamResult) → Nat → List CacheEntry →
    Option String → Option String → FetchOutcome :=
  regionProxyRoute "craftlandInfo" "map_code"

/-- `app.get('/api/v1/playerstats')`, lines 191-202. -/
def playerstatsRoute : (String → UpstreamResult) → Nat → List CacheEntry →
    Option String → Option String → FetchOutcome :=
  regionProxyRoute "playerstats" "uid"

/-- `app.get('/api/v1/wishlistitems')`, lines 204-215. -/
def wishlistitemsRoute : (String → UpstreamResult) → Nat → List CacheEntry →
    Option String → Option String → FetchOutcome :=
  regionProxyRoute "wishlistitems" "uid"

/-- `app.get('/api/v1/guildInfo')`, lines 217-228. -/
def guildInfoRoute : (String → UpstreamResult) → Nat → List CacheEntry →
    Option String → Option String → FetchOutcome :=
  regionProxyRoute "guildInfo" "guildID"

/-- `response.data.attributes` of the panel user endpoint. -/
structure UserAttrs where
  username : String
  email : String
deriving Repr, DecidableEq

/-- `fetchUserDetails(userId)`, `src/index.js` lines 71-83: the panel
lookup result, or the placeholder `{username:'Unknown', email:'Unknown'}`
when the lookup fails (`lookup` returning `none` models the throw). -/
def fetchUserDetails (lookup : Int → Option UserAttrs) (userId : Int) : UserAttrs :=
  match lookup userId with
  | some attrs => attrs
  | none => ⟨"Unknown", "Unknown"⟩

/-- `server.attributes` of one item of the panel listing
(the fields read at `src/index.js` lines 102-114; `memory`/`disk` are the
`limits` sub-fields). -/
structure ServerAttrs where
  id : Int
  name : String
  description : String
  user : Int
  memory : Int
  disk : Int
deriving Repr, DecidableEq

/-- One page of `GET /api/application/servers?page=n`: the item list and
the `meta.pagination` cursor (`current_page`, `total_pages`). -/
structure PageResponse where
  data : List ServerAttrs
  current_page : Nat
  total_pages : Nat
deriving Repr

/-- The joined record pushed at `src/index.js` lines 105-114. -/
structure ServerRecord where
  id : Int
  name : String
  description : String
  user_id : Int
  username : String
  email : String
  ram : Int
  disk : Int
deriving Repr, DecidableEq

/-- The loop body's join of one server item with its owner lookup. -/
def joinServer (lookup : Int → Option UserAttrs) (s : ServerAttrs) : ServerRecord :=
  let userDetails := fetchUserDetails lookup s.user
  ⟨s.id, s.name, s.description, s.user, userDetails.username, userDetails.email,
    s.memory, s.disk⟩

/-- Result of `fetchAllServers`: the record list, or the
`{error: 'Failed to fetch servers'}` object from the catch block. -/
inductive AggResult where
  | ok (servers : List ServerRecord)
  | err
deriving Repr, DecidableEq

/-- The `while (hasNextPage)` loop of `fetchAllServers`
(`src/index.js` lines 91-119), with explicit fuel: `none` models a run
that never terminates (upstream keeps reporting more pages).
`fetchPage p = none` models the page fetch throwing, which the catch
block turns into the error object (discarding the accumulated records). -/
def fetchAllServersAux (fetchPage : Nat → Option PageResponse)
    (lookup : Int → Option UserAttrs) :
    Nat → Nat → List ServerRecord → Option AggResult
  | 0, _, _ => none
  | fuel + 1, page, allServers =>
    match fetchPage page with
    | none => some .err
    | some resp =>
      let allServers := allServers ++ resp.data.map (joinServer lookup)
      if resp.current_page < resp.total_pages then
        fetchAllServersAux fetchPage lookup fuel (page + 1) allServers
      else
        some (.ok allServers)

/-- `fetchAllServers()`, `src/index.js` lines 85-126: starts at page 1
with an empty accumulator. -/
def fetchAllServers (fetchPage : Nat → Option PageResponse)
    (lookup : Int → Option UserAttrs) (fuel : Nat) : Option AggResult :=
  fetchAllServersAux fetchPage lookup fuel 1 []

/-- JSON rendering of a `ServerRecord`, field order as pushed in the
source. -/
def ServerRecord.toJson (r : ServerRecord) : Json :=
  .obj [("id", .num r.id), ("name", .str r.name),
        ("description", .str r.description), ("user_id", .num r.user_id),
        ("username", .str r.username), ("email", .str r.email),
        ("ram", .num r.ram), ("disk", .num r.disk)]

/-- `app.get('/listpanel')`, `src/index.js` lines 128-135: 500 with the
error object when the aggregator failed, otherwise
`JSON.stringify(allServers, null, 2)`. -/
def listpanelRoute (fetchPage : Nat → Option PageResponse)
    (lookup : Int → Option UserAttrs) (fuel : Nat) : Option HttpRes :=
  match fetchAllServers fetchPage lookup fuel with
  | none => none
  | some .err => some ⟨500, .json (.obj [("error", .str "Failed to fetch servers")])⟩
  | some (.ok allServers) =>
      some ⟨200, .text (stringify2 (.arr (allServers.map ServerRecord.toJson)))⟩

/-- Spec-side predicate used to state the region-validator claim:
`s` is a case variant of `code` when the two strings agree position by
position up to letter case (each character of `s` is the corresponding
character of `code` or its lowercase form; the codes are uppercase). -/
def isCaseVariantOf (s code : String) : Prop :=
  List.Forall₂ (fun a b => a = b ∨ a = Char.toLower b) s.data code.data

/-- Spec-side predicate for the amended region-validator claim: `s`
matches `code` position by position where each character is the code
character itself, its ASCII lowercase, or one of the two special Unicode
lowercase forms of a code letter (dotless i for `I`, long s for `S`). -/
def jsCaseVariantOf (s code : String) : Prop :=
  List.Forall₂ (fun a b => a = b ∨ a = Char.toLower b ∨
    (b = 'I' ∧ a = 'ı') ∨ (b = 'S' ∧ a = 'ſ')) s.data code.data

/-- The outcome shape of an aggregator run, forgetting the records:
`none` for non-termination, `some false` for the error object,
`some true` for a successful list. -/
def aggShape : Option AggResult → Option Bool
  | none => none
  | some .err => some false
  | some (.ok _) => some true

/-- Sample upstream payload used for concrete runs. -/
def sampleData : Json := .obj [("region", .str "IND")]

/-- An upstream that always fulfils with `sampleData`. -/
def sampleUpstream : String → UpstreamResult := fun _ => .ok sampleData

/-- First server item of the two-page listing scenario. -/
def serverAlpha : ServerAttrs := ⟨1, "alpha", "first server", 10, 1024, 2048⟩

/-- Second server item of the two-page listing scenario. -/
def serverBeta : ServerAttrs := ⟨2, "beta", "second server", 20, 2048, 4096⟩

/-- A 2-page upstream listing with one item per page; page `n` reports
`current_page = n`, `total_pages = 2`. -/
def twoPageListing : Nat → Option PageResponse
  | 1 => some ⟨[serverAlpha], 1, 2⟩
  | 2 => some ⟨[serverBeta], 2, 2⟩
  | _ => none

/-- A user lookup that knows both owners of the two-page scenario. -/
def allUsersOk : Int → Option UserAttrs := fun userId =>
  if userId == 10 then some ⟨"alice", "alice@example.com"⟩
  else if userId == 20 then some ⟨"bob", "bob@example.com"⟩
  else none

/-- A user lookup that fails for the second owner (user id 20). -/
def secondUserFails : Int → Option UserAttrs := fun userId =>
  if userId == 10 then some ⟨"alice", "alice@example.com"⟩ else none

/-! ### Supporting lemmas -/

/-- `Char.ofNat` round-trips through `toNat` on valid scalar values. -/
theorem toNat_ofNat_valid (n : Nat) (h : n.isValidChar) : (Char.ofNat n).toNat = n := by
  simp only [Char.ofNat, h, dif_pos]
  simp [Char.ofNatAux, Char.toNat, UInt32.ofNat', UInt32.toNat]

/-- Characters are equal iff their scalar values are. -/
theorem char_eq_iff_toNat (a b : Char) : a = b ↔ a.toNat = b.toNat := by
  constructor
  · intro h; rw [h]
  · intro h
    apply Char.ext
    exact UInt32.ext h

/-- For an uppercase ASCII letter `b`, the characters whose ASCII
uppercase form is `b` are exactly `b` itself and its lowercase form. -/
theorem toUpper_eq_iff (a b : Char) (hb1 : 65 ≤ b.toNat) (hb2 : b.toNat ≤ 90) :
    Char.toUpper a = b ↔ (a = b ∨ a = Char.toLower b) := by
  have hvalidU : (b.toNat + 32).isValidChar := by
    unfold Nat.isValidChar; omega
  have hlow : (Char.toLower b).toNat = b.toNat + 32 := by
    unfold Char.toLower
    rw [if_pos ⟨hb1, hb2⟩]
    exact toNat_ofNat_valid _ hvalidU
  by_cases ha : 97 ≤ a.toNat ∧ a.toNat ≤ 122
  · have hvalidA : (a.toNat - 32).isValidChar := by
      unfold Nat.isValidChar; omega
    have hup : (Char.toUpper a).toNat = a.toNat - 32 := by
      unfold Char.toUpper
      rw [if_pos ⟨ha.1, ha.2⟩]
      exact toNat_ofNat_valid _ hvalidA
    rw [char_eq_iff_toNat, hup, char_eq_iff_toNat a b, char_eq_iff_toNat a _, hlow]
    omega
  · have hup : Char.toUpper a = a := by
      unfold Char.toUpper
      rw [if_neg ha]
    rw [hup, char_eq_iff_toNat a b, char_eq_iff_toNat a _, hlow]
    omega

/-- Scalar value of the ASCII lowercase of an uppercase ASCII letter. -/
theorem toLower_toNat (b : Char) (hb1 : 65 ≤ b.toNat) (hb2 : b.toNat ≤ 90) :
    (Char.toLower b).toNat = b.toNat + 32 := by
  have hvalid : (b.toNat + 32).isValidChar := by
    unfold Nat.isValidChar; omega
  unfold Char.toLower
  rw [if_pos ⟨hb1, hb2⟩]
  exact toNat_ofNat_valid _ hvalid

/-- For an uppercase ASCII letter `b`, the characters whose modelled JS
uppercase form is `b` are exactly `b`, its ASCII lowercase, and — when
`b` is `I` or `S` — the special Unicode lowercase form. -/
theorem jsUpcase_eq_iff (a b : Char) (hb1 : 65 ≤ b.toNat) (hb2 : b.toNat ≤ 90) :
    jsUpcaseChar a = b ↔ (a = b ∨ a = Char.toLower b ∨
      (b = 'I' ∧ a = 'ı') ∨ (b = 'S' ∧ a = 'ſ')) := by
  have hblow := toLower_toNat b hb1 hb2
  by_cases h1 : a = 'ı'
  · subst h1
    have hup : jsUpcaseChar 'ı' = 'I' := by decide
    rw [hup]
    constructor
    · intro h
      exact Or.inr (Or.inr (Or.inl ⟨h.symm, rfl⟩))
    · rintro (h | h | ⟨hb, _⟩ | ⟨_, hs⟩)
      · have hdot : ('ı').toNat = 305 := by decide
        have := (char_eq_iff_toNat _ _).mp h
        omega
      · have hdot : ('ı').toNat = 305 := by decide
        have := (char_eq_iff_toNat _ _).mp h
        omega
      · rw [hb]
      · exact absurd hs (by decide)
  · by_cases h2 : a = 'ſ'
    · subst h2
      have hup : jsUpcaseChar 'ſ' = 'S' := by decide
      rw [hup]
      constructor
      · intro h
        exact Or.inr (Or.inr (Or.inr ⟨h.symm, rfl⟩))
      · rintro (h | h | ⟨_, hi⟩ | ⟨hb, _⟩)
        · have hlong : ('ſ').toNat = 383 := by decide
          have := (char_eq_iff_toNat _ _).mp h
          omega
        · have hlong : ('ſ').toNat = 383 := by decide
          have := (char_eq_iff_toNat _ _).mp h
          omega
        · exact absurd hi (by decide)
        · rw [hb]
    · have hup : jsUpcaseChar a = Char.toUpper a := by
        unfold jsUpcaseChar
        rw [if_neg h1, if_neg h2]
      rw [hup, toUpper_eq_iff a b hb1 hb2]
      constructor
      · rintro (h | h)
        · exact Or.inl h
        · exact Or.inr (Or.inl h)
      · rintro (h | h | ⟨_, hi⟩ | ⟨_, hs⟩)
        · exact Or.inl h
        · exact Or.inr h
        · exact absurd hi h1
        · exact absurd hs h2

/-- Mapping the modelled JS uppercase over a character list hits a target
list of uppercase ASCII letters exactly when the two lists are JS case
variants position by position. -/
theorem map_jsUpcase_eq_iff (l m : List Char)
    (hm : ∀ b ∈ m, 65 ≤ b.toNat ∧ b.toNat ≤ 90) :
    l.map jsUpcaseChar = m ↔
      List.Forall₂ (fun a b => a = b ∨ a = Char.toLower b ∨
        (b = 'I' ∧ a = 'ı') ∨ (b = 'S' ∧ a = 'ſ')) l m := by
  induction l generalizing m with
  | nil => cases m <;> simp
  | cons a l ih =>
    cases m with
    | nil => simp
    | cons b m =>
      rw [List.map_cons, List.forall₂_cons]
      have hb := hm b (List.mem_cons_self b m)
      have hrest : ∀ x ∈ m, 65 ≤ x.toNat ∧ x.toNat ≤ 90 :=
        fun x hx => hm x (List.mem_cons_of_mem b hx)
      rw [List.cons.injEq]
      exact and_congr (jsUpcase_eq_iff a b hb.1 hb.2) (ih m hrest)

/-- Mapping ASCII uppercase over a character list hits a target list of
uppercase ASCII letters exactly when the two lists are case variants
position by position. -/
theorem map_toUpper_eq_iff (l m : List Char)
    (hm : ∀ b ∈ m, 65 ≤ b.toNat ∧ b.toNat ≤ 90) :
    l.map Char.toUpper = m ↔
      List.Forall₂ (fun a b => a = b ∨ a = Char.toLower b) l m := by
  induction l generalizing m with
  | nil => cases m <;> simp
  | cons a l ih =>
    cases m with
    | nil => simp
    | cons b m =>
      rw [List.map_cons, List.forall₂_cons]
      have hb := hm b (List.mem_cons_self b m)
      have hrest : ∀ x ∈ m, 65 ≤ x.toNat ∧ x.toNat ≤ 90 :=
        fun x hx => hm x (List.mem_cons_of_mem b hx)
      rw [List.cons.injEq]
      exact and_congr (toUpper_eq_iff a b hb.1 hb.2) (ih m hrest)

/-- Rebuilding a string from its character data is the identity. -/
theorem mk_data (t : String) : String.mk t.data = t := by
  cases t; rfl

/-- String concatenation acts as list concatenation on character data. -/
theorem data_append (a b : String) : (a ++ b).data = a.data ++ b.data := rfl

/-- Strings with equal character data are equal. -/
theorem string_data_inj (s t : String) (h : s.data = t.data) : s = t := by
  have hmk := congrArg String.mk h
  rwa [mk_data, mk_data] at hmk

/-- Every character of every supported region code is an uppercase ASCII
letter. -/
theorem regions_upper : ∀ code ∈ supportedRegions, ∀ b ∈ code.data,
    65 ≤ b.toNat ∧ b.toNat ≤ 90 := by decide

/-- The shape (non-termination / error / success) of an aggregator run
does not depend on the user lookup nor on the accumulator contents: page
advancement is driven only by the page fetches. -/
theorem aggShape_lookup_irrelevant (fetchPage : Nat → Option PageResponse)
    (u u' : Int → Option UserAttrs) (fuel : Nat) :
    ∀ p acc acc', aggShape (fetchAllServersAux fetchPage u fuel p acc) =
      aggShape (fetchAllServersAux fetchPage u' fuel p acc') := by
  induction fuel with
  | zero => intro p acc acc'; rfl
  | succ n ih =>
    intro p acc acc'
    unfold fetchAllServersAux
    cases fetchPage p with
    | none => rfl
    | some resp =>
      by_cases hc : resp.current_page < resp.total_pages
      · simp only [hc, if_true]
        exact ih _ _ _
      · simp only [hc, if_false]
        rfl

/-- `get` right after `put` on the same key sees the stored value exactly
while the TTL has not elapsed. -/
theorem cacheGet_cachePut (c : List CacheEntry) (storedAt : Nat)
    (key v : String) (ttl now : Nat) :
    cacheGet (cachePut c storedAt key v ttl) now key =
      (if now < storedAt + ttl then some v else none) := by
  simp [cacheGet, cachePut, List.find?]

/-- A cache miss always sends the handler to the upstream: whatever the
upstream answers, exactly one outbound call to `url` is made. -/
theorem miss_outbound (upstream : String → UpstreamResult) (now : Nat)
    (c : List CacheEntry) (url key : String)
    (hmiss : cacheGet c now key = none) :
    (fetchFromApi upstream now c url key).outboundCalls = [url] := by
  simp only [fetchFromApi, hmiss]
  cases upstream url with
  | ok data =>
    by_cases he : isEmptyPayload data = true
    · simp [he]
    · simp [he]
  | err status msg => rfl

/-! ### Claims -/

/-- C1: when the cache key holds a previously stored, unexpired entry,
`fetchFromApi` issues no outbound request and responds with exactly the
stored body; and for the account route with `region=IND`, `uid=123` and an
empty cache, the first (uncached) call forwards to
`BASE_URL/account?region=IND&uid=123` and stores under the cache key
`account-IND-123`. -/
theorem claim1_cached_hit_and_account_key (upstream : String → UpstreamResult)
    (now : Nat) (c : List CacheEntry) (url key v : String)
    (h : cacheGet c now key = some v) :
    fetchFromApi upstream now c url key = ⟨⟨200, .text v⟩, c, []⟩ ∧
    (accountRoute sampleUpstream 0 [] (some "IND") (some "123")).outboundCalls =
      ["https://free-ff-api-src-5plp.onrender.com/api/v1/account?region=IND&uid=123"] ∧
    (accountRoute sampleUpstream 0 [] (some "IND") (some "123")).cacheAfter =
      [⟨"account-IND-123", stringify2 sampleData, CACHE_DURATION⟩] := by
  refine ⟨?_, by decide, by decide⟩
  simp only [fetchFromApi, h]

/-- Witness for C1 at a concrete cached state. -/
theorem claim1_witness :
    fetchFromApi sampleUpstream 5 [⟨"k", "body", 10⟩] "u" "k" =
      ⟨⟨200, Body.text "body"⟩, [⟨"k", "body", 10⟩], []⟩ :=
  (claim1_cached_hit_and_account_key sampleUpstream 5 [⟨"k", "body", 10⟩]
    "u" "k" "body" (by decide)).1

/-- C2: on the 2-page listing with one item per page the aggregator
returns exactly the two joined records in page order; when the user
lookup fails for the second item, that record still appears with username
and email `Unknown`. -/
theorem claim2_two_page_aggregation :
    fetchAllServers twoPageListing allUsersOk 2 =
      some (.ok
        [⟨1, "alpha", "first server", 10, "alice", "alice@example.com", 1024, 2048⟩,
         ⟨2, "beta", "second server", 20, "bob", "bob@example.com", 2048, 4096⟩]) ∧
    fetchAllServers twoPageListing secondUserFails 2 =
      some (.ok
        [⟨1, "alpha", "first server", 10, "alice", "alice@example.com", 1024, 2048⟩,
         ⟨2, "beta", "second server", 20, "Unknown", "Unknown", 2048, 4096⟩]) :=
  ⟨by decide, by decide⟩

/-- C3: on a cache miss, if the upstream fulfils with an empty payload
(falsy or without enumerable fields), the handler answers 429 with the
fixed rate-limit body. -/
theorem claim3_empty_payload_429 (upstream : String → UpstreamResult)
    (now : Nat) (c : List CacheEntry) (url key : String) (d : Json)
    (hmiss : cacheGet c now key = none) (hok : upstream url = .ok d)
    (hempty : isEmptyPayload d = true) :
    fetchFromApi upstream now c url key =
      ⟨⟨429, .json rateLimitBody⟩, c, [url]⟩ := by
  simp only [fetchFromApi, hmiss, hok, hempty, if_true]

/-- Witness for C3: empty object payload on an empty cache. -/
theorem claim3_witness :
    fetchFromApi (fun _ => .ok (.obj [])) 0 [] "u" "k" =
      ⟨⟨429, Body.json rateLimitBody⟩, [], ["u"]⟩ :=
  claim3_empty_payload_429 (fun _ => .ok (.obj [])) 0 [] "u" "k" (.obj [])
    rfl rfl rfl

/-- C4 counterexample: `ınd` (with U+0131 dotless i, whose Unicode
uppercase is `I`) validates in the program, yet it is no position-wise
case variant of any supported code — so "for every other string it
returns false" fails as stated. -/
theorem claim4_counterexample :
    isValidRegion "ınd" = true ∧
    ¬∃ code ∈ supportedRegions, isCaseVariantOf "ınd" code := by
  refine ⟨by decide, ?_⟩
  rintro ⟨code, hc, hv⟩
  have h := (map_toUpper_eq_iff "ınd".data code.data (regions_upper code hc)).mpr hv
  fin_cases hc <;> exact absurd h (by decide)

/-- C4 (amended): every case variant of a supported code validates, and
in general `isValidRegion` returns true exactly on the JS case variants
of the 13 codes: strings matching a code position by position where each
character is the code character, its ASCII lowercase, or the special
Unicode lowercase form dotless i (of `I`) or long s (of `S`). -/
theorem claim4_isValidRegion_js_case_variants (s : String) :
    (isValidRegion s = true ↔ ∃ code ∈ supportedRegions, jsCaseVariantOf s code) ∧
    (∀ code ∈ supportedRegions, isCaseVariantOf s code → isValidRegion s = true) := by
  have h1 : isValidRegion s = true ↔ jsToUpperCase s ∈ supportedRegions := by
    simp [isValidRegion]
  have h2 : ∀ code ∈ supportedRegions,
      (jsToUpperCase s = code ↔ jsCaseVariantOf s code) := by
    intro code hc
    have hmk : jsToUpperCase s = code ↔ s.data.map jsUpcaseChar = code.data := by
      constructor
      · intro h
        have := congrArg String.data h
        simpa [jsToUpperCase] using this
      · intro h
        unfold jsToUpperCase
        rw [h, mk_data]
    rw [hmk]
    exact map_jsUpcase_eq_iff s.data code.data (regions_upper code hc)
  have hmain : isValidRegion s = true ↔
      ∃ code ∈ supportedRegions, jsCaseVariantOf s code := by
    rw [h1]
    constructor
    · intro h
      exact ⟨jsToUpperCase s, h, (h2 _ h).mp rfl⟩
    · rintro ⟨code, hc, hv⟩
      have he : jsToUpperCase s = code := (h2 code hc).mpr hv
      rw [he]
      exact hc
  refine ⟨hmain, ?_⟩
  intro code hc hv
  refine hmain.mpr ⟨code, hc, ?_⟩
  exact List.Forall₂.imp (fun a b h => h.imp id Or.inl) hv

/-- Witness for C4's amended theorem: the ASCII variant `ind` validates
through the second conjunct, and the Unicode variant `ınd` validates
through the characterization. -/
theorem claim4_witness :
    isValidRegion "ind" = true ∧ isValidRegion "ınd" = true :=
  ⟨(claim4_isValidRegion_js_case_variants "ind").2 "IND" (by decide)
      ((map_toUpper_eq_iff "ind".data "IND".data (regions_upper "IND" (by decide))).mp
        (by decide)),
   (claim4_isValidRegion_js_case_variants "ınd").1.mpr
      ⟨"IND", by decide,
        (map_jsUpcase_eq_iff "ınd".data "IND".data (regions_upper "IND" (by decide))).mp
          (by decide)⟩⟩

/-- C5: a region-scoped proxy request missing one or both required
parameters gets status 400 with the fixed body naming both required
fields; in particular the account route with `uid` given but `region`
omitted. -/
theorem claim5_missing_params_400 (endpoint p : String)
    (upstream : String → UpstreamResult) (now : Nat) (c : List CacheEntry)
    (region? second? : Option String)
    (h : (isMissing region? || isMissing second?) = true) :
    regionProxyRoute endpoint p upstream now c region? second? =
      ⟨⟨400, .json (missingParamsBody p)⟩, c, []⟩ ∧
    accountRoute upstream now c none (some "123") =
      ⟨⟨400, .json (.obj [("error",
        .str "Please provide both \"region\" and \"uid\" parameters.")])⟩, c, []⟩ := by
  constructor
  · simp only [regionProxyRoute, h, if_true]
  · rfl

/-- Witness for C5: account route with only `uid` present. -/
theorem claim5_witness :
    regionProxyRoute "account" "uid" sampleUpstream 0 [] none (some "123") =
      ⟨⟨400, Body.json (missingParamsBody "uid")⟩, [], []⟩ :=
  (claim5_missing_params_400 "account" "uid" sampleUpstream 0 [] none (some "123")
    (by decide)).1

/-- C6: a failing page fetch makes the aggregator return the error object
(no partial list is kept), and `/listpanel` then answers 500; the user
lookup, by contrast, can never change whether a run succeeds, fails or
diverges. -/
theorem claim6_page_failure_all_or_nothing :
    (∀ (fetchPage : Nat → Option PageResponse) (lookup : Int → Option UserAttrs)
       (fuel p : Nat) (acc : List ServerRecord), fetchPage p = none →
       fetchAllServersAux fetchPage lookup (fuel + 1) p acc = some AggResult.err) ∧
    (∀ (fetchPage : Nat → Option PageResponse) (u u' : Int → Option UserAttrs)
       (fuel p : Nat) (acc acc' : List ServerRecord),
       aggShape (fetchAllServersAux fetchPage u fuel p acc) =
       aggShape (fetchAllServersAux fetchPage u' fuel p acc')) ∧
    (∀ (fetchPage : Nat → Option PageResponse) (lookup : Int → Option UserAttrs)
       (fuel : Nat), fetchAllServers fetchPage lookup fuel = some AggResult.err →
       listpanelRoute fetchPage lookup fuel =
         some ⟨500, .json (.obj [("error", .str "Failed to fetch servers")])⟩) := by
  refine ⟨?_, ?_, ?_⟩
  · intro fetchPage lookup fuel p acc h
    unfold fetchAllServersAux
    rw [h]
  · intro fetchPage u u' fuel p acc acc'
    exact aggShape_lookup_irrelevant fetchPage u u' fuel p acc acc'
  · intro fetchPage lookup fuel h
    unfold listpanelRoute
    rw [h]

/-- Witness for C6 at concrete scenarios: an immediately failing listing,
the two-page scenario under the two lookups, and the resulting 500. -/
theorem claim6_witness :
    fetchAllServersAux (fun _ => none) allUsersOk 1 1 [] = some AggResult.err ∧
    aggShape (fetchAllServersAux twoPageListing allUsersOk 2 1 []) =
      aggShape (fetchAllServersAux twoPageListing secondUserFails 2 1 []) ∧
    listpanelRoute (fun _ => none) allUsersOk 1 =
      some ⟨500, Body.json (.obj [("error", .str "Failed to fetch servers")])⟩ :=
  ⟨claim6_page_failure_all_or_nothing.1 (fun _ => none) allUsersOk 0 1 [] rfl,
   claim6_page_failure_all_or_nothing.2.1 twoPageListing allUsersOk secondUserFails 2 1 [] [],
   claim6_page_failure_all_or_nothing.2.2 (fun _ => none) allUsersOk 1
     (claim6_page_failure_all_or_nothing.1 (fun _ => none) allUsersOk 0 1 [] rfl)⟩

/-- C7: a stored cache entry is visible to `get` exactly while
`now < storedAt + ttl`; the proxy TTL constant is 24 hours in
milliseconds; and once the TTL has elapsed the next request for that key
behaves as a cache miss, going to the upstream again. -/
theorem claim7_ttl_visibility (c : List CacheEntry) (storedAt : Nat)
    (key v : String) (ttl now : Nat) :
    cacheGet (cachePut c storedAt key v ttl) now key =
      (if now < storedAt + ttl then some v else none) ∧
    CACHE_DURATION = 24 * 60 * 60 * 1000 ∧
    (∀ (upstream : String → UpstreamResult) (url : String),
      storedAt + ttl ≤ now →
      (fetchFromApi upstream now (cachePut c storedAt key v ttl) url key).outboundCalls =
        [url]) := by
  refine ⟨cacheGet_cachePut c storedAt key v ttl now, rfl, ?_⟩
  intro upstream url hexp
  apply miss_outbound
  rw [cacheGet_cachePut]
  exact if_neg (by omega)

/-- Witness for C7: an entry stored at time 0 with TTL 10 is visible at
time 9 and expired at time 10, when the handler fetches again. -/
theorem claim7_witness :
    cacheGet (cachePut [] 0 "k" "v" 10) 9 "k" =
      (if 9 < 0 + 10 then some "v" else none) ∧
    cacheGet (cachePut [] 0 "k" "v" 10) 10 "k" =
      (if 10 < 0 + 10 then some "v" else none) ∧
    (fetchFromApi sampleUpstream 10 (cachePut [] 0 "k" "v" 10) "u" "k").outboundCalls =
      ["u"] :=
  ⟨(claim7_ttl_visibility [] 0 "k" "v" 10 9).1,
   (claim7_ttl_visibility [] 0 "k" "v" 10 10).1,
   (claim7_ttl_visibility [] 0 "k" "v" 10 10).2.2 sampleUpstream "u" (by decide)⟩

/-- C8: on a cache miss, when the upstream fetch rejects, the response
status is the upstream HTTP status when the error carries a response and
500 otherwise, with body `{error: 'Failed to fetch data', details}`. -/
theorem claim8_transport_error (upstream : String → UpstreamResult)
    (now : Nat) (c : List CacheEntry) (url key : String)
    (st : Option Nat) (msg : String)
    (hmiss : cacheGet c now key = none) (herr : upstream url = .err st msg) :
    fetchFromApi upstream now c url key =
      ⟨⟨st.getD 500,
          .json (.obj [("error", .str "Failed to fetch data"), ("details", .str msg)])⟩,
        c, [url]⟩ := by
  simp only [fetchFromApi, hmiss, herr]

/-- Witness for C8: an error with a 404 response, and one with no
response falling back to 500. -/
theorem claim8_witness :
    fetchFromApi (fun _ => .err (some 404) "Request failed") 0 [] "u" "k" =
      ⟨⟨404, Body.json (.obj [("error", .str "Failed to fetch data"),
          ("details", .str "Request failed")])⟩, [], ["u"]⟩ ∧
    fetchFromApi (fun _ => .err none "socket hang up") 0 [] "u" "k" =
      ⟨⟨500, Body.json (.obj [("error", .str "Failed to fetch data"),
          ("details", .str "socket hang up")])⟩, [], ["u"]⟩ :=
  ⟨claim8_transport_error (fun _ => .err (some 404) "Request failed") 0 [] "u" "k"
      (some 404) "Request failed" rfl rfl,
   claim8_transport_error (fun _ => .err none "socket hang up") 0 [] "u" "k"
      none "socket hang up" rfl rfl⟩

/-- C9: the 429 empty-payload branch stores nothing: the cache is
unchanged, so an immediately following request for the same key fetches
from the upstream again instead of serving the 429 from cache. -/
theorem claim9_429_not_cached (upstream : String → UpstreamResult)
    (now : Nat) (c : List CacheEntry) (url key : String) (d : Json)
    (hmiss : cacheGet c now key = none) (hok : upstream url = .ok d)
    (hempty : isEmptyPayload d = true) :
    (fetchFromApi upstream now c url key).cacheAfter = c ∧
    (fetchFromApi upstream now
        (fetchFromApi upstream now c url key).cacheAfter url key).outboundCalls =
      [url] := by
  have hstep : fetchFromApi upstream now c url key =
      ⟨⟨429, .json rateLimitBody⟩, c, [url]⟩ := by
    simp only [fetchFromApi, hmiss, hok, hempty, if_true]
  rw [hstep]
  exact ⟨rfl, miss_outbound upstream now c url key hmiss⟩

/-- Witness for C9: empty-object payload on an empty cache. -/
theorem claim9_witness :
    (fetchFromApi (fun _ => .ok (.obj [])) 0 [] "u" "k").cacheAfter = [] ∧
    (fetchFromApi (fun _ => .ok (.obj [])) 0
        (fetchFromApi (fun _ => .ok (.obj [])) 0 [] "u" "k").cacheAfter
        "u" "k").outboundCalls = ["u"] :=
  claim9_429_not_cached (fun _ => .ok (.obj [])) 0 [] "u" "k" (.obj []) rfl rfl rfl

/-- C10: for every region-scoped route (any endpoint name and second
parameter name, hence all six routes) and every pair of distinct,
case-insensitively equal regions of which one passes validation, the
other also passes validation, yet the upstream URL and the cache key —
which embed the region verbatim — are distinct between the two requests,
and each request really proceeds to `fetchFromApi` with exactly that URL
and key. -/
theorem claim10_verbatim_region (endpoint p : String)
    (upstream : String → UpstreamResult) (now : Nat) (c : List CacheEntry)
    (r1 r2 v : String) (hne : r1 ≠ r2)
    (hcase : jsToUpperCase r1 = jsToUpperCase r2)
    (hval : isValidRegion r1 = true) (hv : v ≠ "") :
    isValidRegion r2 = true ∧
    (BASE_URL ++ "/" ++ endpoint ++ "?region=" ++ r1 ++ "&" ++ p ++ "=" ++ v) ≠
      (BASE_URL ++ "/" ++ endpoint ++ "?region=" ++ r2 ++ "&" ++ p ++ "=" ++ v) ∧
    (endpoint ++ "-" ++ r1 ++ "-" ++ v) ≠ (endpoint ++ "-" ++ r2 ++ "-" ++ v) ∧
    regionProxyRoute endpoint p upstream now c (some r1) (some v) =
      fetchFromApi upstream now c
        (BASE_URL ++ "/" ++ endpoint ++ "?region=" ++ r1 ++ "&" ++ p ++ "=" ++ v)
        (endpoint ++ "-" ++ r1 ++ "-" ++ v) ∧
    regionProxyRoute endpoint p upstream now c (some r2) (some v) =
      fetchFromApi upstream now c
        (BASE_URL ++ "/" ++ endpoint ++ "?region=" ++ r2 ++ "&" ++ p ++ "=" ++ v)
        (endpoint ++ "-" ++ r2 ++ "-" ++ v) := by
  have hval2 : isValidRegion r2 = true := by
    unfold isValidRegion at hval ⊢
    rw [← hcase]
    exact hval
  have hr1 : r1 ≠ "" := by
    intro h
    rw [h] at hval
    exact absurd hval (by decide)
  have hr2 : r2 ≠ "" := by
    intro h
    rw [h] at hval2
    exact absurd hval2 (by decide)
  have hm1 : isMissing (some r1) = false := by simp [isMissing, hr1]
  have hm2 : isMissing (some r2) = false := by simp [isMissing, hr2]
  have hmv : isMissing (some v) = false := by simp [isMissing, hv]
  refine ⟨hval2, ?_, ?_, ?_, ?_⟩
  · intro heq
    apply hne
    apply string_data_inj
    have hd := congrArg String.data heq
    simp only [data_append, List.append_assoc] at hd
    have h1 := List.append_cancel_left hd
    have h2 := List.append_cancel_left h1
    have h3 := List.append_cancel_left h2
    have h4 := List.append_cancel_left h3
    exact List.append_cancel_right h4
  · intro heq
    apply hne
    apply string_data_inj
    have hd := congrArg String.data heq
    simp only [data_append, List.append_assoc] at hd
    have h1 := List.append_cancel_left hd
    have h2 := List.append_cancel_left h1
    exact List.append_cancel_right h2
  · simp [regionProxyRoute, hm1, hmv, hval]
  · simp [regionProxyRoute, hm2, hmv, hval2]

/-- Witness for C10 at the account route shape with regions `ind` and
`IND` and uid `123`. -/
theorem claim10_witness :
    isValidRegion "IND" = true ∧
    (BASE_URL ++ "/" ++ "account" ++ "?region=" ++ "ind" ++ "&" ++ "uid" ++ "=" ++ "123") ≠
      (BASE_URL ++ "/" ++ "account" ++ "?region=" ++ "IND" ++ "&" ++ "uid" ++ "=" ++ "123") ∧
    ("account" ++ "-" ++ "ind" ++ "-" ++ "123") ≠ ("account" ++ "-" ++ "IND" ++ "-" ++ "123") ∧
    regionProxyRoute "account" "uid" sampleUpstream 0 [] (some "ind") (some "123") =
      fetchFromApi sampleUpstream 0 []
        (BASE_URL ++ "/" ++ "account" ++ "?region=" ++ "ind" ++ "&" ++ "uid" ++ "=" ++ "123")
        ("account" ++ "-" ++ "ind" ++ "-" ++ "123") ∧
    regionProxyRoute "account" "uid" sampleUpstream 0 [] (some "IND") (some "123") =
      fetchFromApi sampleUpstream 0 []
        (BASE_URL ++ "/" ++ "account" ++ "?region=" ++ "IND" ++ "&" ++ "uid" ++ "=" ++ "123")
        ("account" ++ "-" ++ "IND" ++ "-" ++ "123") :=
  claim10_verbatim_region "account" "uid" sampleUpstream 0 [] "ind" "IND" "123"
    (by decide) (by decide) (by decide) (by decide)

end Cloudea
